import Mathlib

/-!
Shallow embedding of `importer.py` (todoist-importer): the field mapper
(`TodoistAPI.add_item`'s payload construction), the batching wrapper
(`TodoistAPI._chunk_api`), the reminder call (`TodoistAPI.add_reminder`)
and the commit/retry loop (`TodoistAPI.commit`).
-/

namespace Importer

/-- Python exceptions that the embedded code can raise or anticipate. -/
inductive PyExc where
  | keyError
  | indexError
  | typeError
  | unboundLocal
  deriving DecidableEq, Repr

/-! ### Datetime model

`ical_item['DUE'].dt` is a zoned timestamp.  We model it as a wall-clock
reading in minutes since 1970-01-01T00:00 together with a UTC offset in
minutes (east positive): the instant it denotes is `wall - offset`.
`astimezone(pytz.timezone('UTC'))` re-expresses the same instant with
offset 0. -/

structure ZonedTime where
  wall : Int
  offset : Int
  deriving DecidableEq, Repr

/-- `datetime.astimezone(UTC)`: same instant, offset zero. -/
def astimezoneUTC (z : ZonedTime) : ZonedTime :=
  ⟨z.wall - z.offset, 0⟩

/-- Civil date from a day count since 1970-01-01 (proleptic Gregorian),
for the importer's domain of timestamps at or after the epoch. -/
def civilFromDays (z0 : Nat) : Nat × Nat × Nat :=
  let z := z0 + 719468
  let era := z / 146097
  let doe := z % 146097
  let yoe := (doe - doe / 1460 + doe / 36524 - doe / 146096) / 365
  let y := yoe + era * 400
  let doy := doe - (365 * yoe + yoe / 4 - yoe / 100)
  let mp := (5 * doy + 2) / 153
  let d := doy - (153 * mp + 2) / 5 + 1
  let m := if mp < 10 then mp + 3 else mp - 9
  (if m ≤ 2 then y + 1 else y, m, d)

def pad2 (n : Nat) : String :=
  if n < 10 then "0" ++ toString n else toString n

def pad4 (n : Nat) : String :=
  if n < 10 then "000" ++ toString n
  else if n < 100 then "00" ++ toString n
  else if n < 1000 then "0" ++ toString n
  else toString n

/-- `strftime('%Y-%m-%dT%H:%M')` on a wall-clock reading in minutes since
the epoch (timestamps before the epoch are outside the modelled domain). -/
def strftimeYmdHM (wall : Int) : String :=
  let m := wall.toNat
  let day := m / 1440
  let rem := m % 1440
  let ymd := civilFromDays day
  pad4 ymd.1 ++ "-" ++ pad2 ymd.2.1 ++ "-" ++ pad2 ymd.2.2 ++ "T" ++
    pad2 (rem / 60) ++ ":" ++ pad2 (rem % 60)

/-! ### Field mapper (`add_item`, lines 63-98)

A `CalendarTask` is the `ical_item` record: `SUMMARY`, optional `DUE`,
optional `STATUS`, optional `RRULE`.  The `RRULE` value is an association
list from rule keys to their value lists, in key order, mirroring the
`rrule.keys()` iteration and `rrule['FREQ']` lookups of the source. -/

structure CalendarTask where
  summary : String
  due : Option ZonedTime
  status : Option String
  rrule : Option (List (String × List String))
  deriving DecidableEq, Repr

/-- The `td_item_info` payload assembled by `add_item`. -/
structure TdItemInfo where
  content : String
  due_date_utc : Option String
  date_string : Option String
  status : Option String
  has_notifications : Bool
  deriving DecidableEq, Repr

/-- Dictionary lookup on the recurrence rule; `none` is Python's `KeyError`. -/
def rruleLookup (key : String) (r : List (String × List String)) :
    Option (List String) :=
  (r.find? (fun kv => kv.1 = key)).map (fun kv => kv.2)

/-- The `for key in rrule.keys()` loop of lines 83-87.  Each iteration
evaluates `rrule['FREQ'][0]` and stores it in `date_string`; a missing
`FREQ` key raises `KeyError`, which the enclosing `except KeyError` of
line 88 catches (keeping the mutations made so far); an empty `FREQ`
value list raises `IndexError`, which nothing catches. -/
def rruleForLoop (keys : List String) (r : List (String × List String))
    (info : TdItemInfo) : Except PyExc TdItemInfo :=
  match keys with
  | [] => .ok info
  | _ :: ks =>
    match rruleLookup "FREQ" r with
    | none => .ok info
    | some freq =>
      match freq.head? with
      | none => .error .indexError
      | some f => rruleForLoop ks r { info with date_string := some f }

/-- The mapped due-date string used for both `due_date_utc` and
`date_string`: `ical_item['DUE'].dt.astimezone(UTC).strftime('%Y-%m-%dT%H:%M')`. -/
def dueUtcString (z : ZonedTime) : String :=
  strftimeYmdHM (astimezoneUTC z).wall

/-- Payload construction of `add_item` (lines 65-89): content, the
due-date try/except, the status try/except, `has_notifications`, and the
recurrence try/except. -/
def addItemInfo (t : CalendarTask) : Except PyExc TdItemInfo :=
  let info0 : TdItemInfo :=
    { content := t.summary, due_date_utc := none, date_string := none,
      status := none, has_notifications := false }
  let info1 :=
    match t.due with
    | some z =>
      { info0 with due_date_utc := some (dueUtcString z),
                   date_string := some (dueUtcString z) }
    | none => info0
  let info2 :=
    match t.status with
    | some s => { info1 with status := some s }
    | none => info1
  let info3 := { info2 with has_notifications := true }
  match t.rrule with
  | none => .ok info3
  | some r => rruleForLoop (r.map (fun kv => kv.1)) r info3

/-- The `FREQ` entry of a task's recurrence rule, when both exist. -/
def rruleFreq (t : CalendarTask) : Option (List String) :=
  t.rrule.bind (rruleLookup "FREQ")

/-! ### Batching client state (`_chunk_api`, lines 36-46)

`commandCount` is `self._command_count`; `pending` counts the commands
sitting in the wrapped library's queue since the last submission;
`flushes` records the size of every batch actually submitted to the
remote service (empty in dry-run mode, where `commit` is a no-op);
`maxPending` is an observer tracking the largest `pending` ever held.
`doCommit` is `self._do_commit`. -/

structure ClientState where
  doCommit : Bool
  commandCount : Nat
  pending : Nat
  flushes : List Nat
  maxPending : Nat
  deriving DecidableEq, Repr

/-- The threshold of line 41: `if self._command_count > 90`. -/
def chunkLimit : Nat := 90

/-- State effect of `commit()` when every submission attempt succeeds
(the retry behaviour of lines 126-155 is modelled separately by
`commitModel`): in dry-run mode a no-op; otherwise the library queue is
submitted as one batch and emptied.  `commit` itself never touches
`_command_count`. -/
def commitSimple (s : ClientState) : ClientState :=
  if s.doCommit then
    { s with pending := 0, flushes := s.flushes ++ [s.pending] }
  else s

/-- Entry of the `_chunk_api` wrapper (lines 37-44): increment
`_command_count`; if it now exceeds the threshold, call `self.commit()`
and reset the counter to zero.  The wrapped call's own commands are
queued afterwards. -/
def chunkEnter (s : ClientState) : ClientState :=
  let s1 := { s with commandCount := s.commandCount + 1 }
  if s1.commandCount > chunkLimit then
    { commitSimple s1 with commandCount := 0 }
  else s1

/-- Queue `q` commands into the library's pending queue. -/
def queueCmds (q : Nat) (s : ClientState) : ClientState :=
  let p := s.pending + q
  { s with pending := p, maxPending := max s.maxPending p }

/-- A `_chunk_api`-wrapped call whose body queues `q` commands. -/
def chunkCall (q : Nat) (s : ClientState) : ClientState :=
  queueCmds q (chunkEnter s)

/-- `close_item` (lines 101-110): wrapped by `_chunk_api`; its body
queues one `item.close()` command exactly when the task's `STATUS` is
`COMPLETED`, and queues nothing otherwise (the `KeyError` and the failed
comparison are both absorbed). -/
def close_item (status : Option String) (s : ClientState) : ClientState :=
  chunkCall (if status = some "COMPLETED" then 1 else 0) s

/-- State effect of `add_item` (lines 63-98) when the mapper succeeds:
wrapper entry, one queued `items.add` command, then the unconditional
nested call `self.close_item(...)` of line 96, itself wrapped. -/
def add_item (status : Option String) (s : ClientState) : ClientState :=
  close_item status (queueCmds 1 (chunkEnter s))

/-- A fresh non-dry-run session right after `__init__`. -/
def initState : ClientState :=
  { doCommit := true, commandCount := 0, pending := 0, flushes := [],
    maxPending := 0 }

/-- `n` wrapped mutating calls, each queueing exactly one command, on a
fresh non-dry-run session. -/
def runCalls : Nat → ClientState
  | 0 => initState
  | n + 1 => chunkCall 1 (runCalls n)

/-- A sequence of wrapped mutating calls, the `k`-th queueing `qs k`
commands, from an arbitrary starting state. -/
def runList (qs : List Nat) (s : ClientState) : ClientState :=
  qs.foldl (fun a q => chunkCall q a) s

/-! ### Commit retry loop (`commit`, lines 124-157)

Each `self.api.commit()` call yields a response; the loop's behaviour
depends only on whether the response dict has an `error_code`, on which
code it is, and on `error_extra['retry_after']`.  We feed the loop a
list of successive responses (the oracle for the remote service) and
record its observable events.  A `none` result means the supplied list
ran out with the loop still running (the loop can spin forever, e.g. on
an unbroken run of error-40 responses). -/

inductive Response where
  /-- A response without an `error_code` key (or not a dict): success. -/
  | ok
  /-- `error_code` 35: the rate limit was hit. -/
  | rateLimited
  /-- `error_code` 40 with an optional `error_extra.retry_after`. -/
  | unavailable (retryAfter : Option Nat)
  /-- A dict carrying some other `error_code`. -/
  | otherError
  deriving DecidableEq, Repr

inductive Event where
  /-- One `self.api.commit()` submission attempt. -/
  | attempt
  /-- `time.sleep(secs)`. -/
  | sleep (secs : Nat)
  /-- Undoing an already-flushed batch.  The remote interface would
  offer such an operation, but `commit` never invokes one. -/
  | rollback
  deriving DecidableEq, Repr

inductive Outcome where
  /-- `commit` returns normally ("Commit succeeded"). -/
  | success
  /-- `sys.exit("Too many retries")`. -/
  | fatalExit
  deriving DecidableEq, Repr

/-- `MAX_TRIES` of line 126. -/
def MAX_TRIES : Nat := 3

/-- The `while True` loop of lines 128-150, with `tries` as line 127's
counter.  Returns the event trace and the final value of `tries`.
Faithful reading of lines 131-150: with `error_code` 35 and
`tries < MAX_TRIES`, sleep 65 seconds, increment `tries`, continue; with
`error_code` 40 and `tries < MAX_TRIES`, compute `retry_after` (default
30), log it, and continue — no sleep is performed; any other case falls
through to `break`. -/
def commitLoop : Nat → List Response → Option (List Event × Nat)
  | _, [] => none
  | tries, r :: rest =>
    match r with
    | .ok => some ([.attempt], tries)
    | .otherError => some ([.attempt], tries)
    | .rateLimited =>
      if tries < MAX_TRIES then
        (commitLoop (tries + 1) rest).map
          (fun et => (.attempt :: .sleep 65 :: et.1, et.2))
      else some ([.attempt], tries)
    | .unavailable _ =>
      if tries < MAX_TRIES then
        (commitLoop tries rest).map (fun et => (.attempt :: et.1, et.2))
      else some ([.attempt], tries)

/-- Lines 151-155: after the loop, `tries < MAX_TRIES` means success;
otherwise `sys.exit` terminates the process. -/
def commitOutcome (tries : Nat) : Outcome :=
  if tries < MAX_TRIES then .success else .fatalExit

/-- `commit()` (lines 124-157): a logged no-op in dry-run mode, the
retry loop followed by the success/exit check otherwise. -/
def commitModel (doCommit : Bool) (responses : List Response) :
    Option (List Event × Outcome) :=
  if doCommit then
    (commitLoop 0 responses).map (fun et => (et.1, commitOutcome et.2))
  else some ([], .success)

/-- The `retry_after` of lines 141-146: the server-supplied value when
`error_extra['retry_after']` is present, else the 30-second default.
Computed and logged by the code, but never slept on. -/
def retryAfterOf (ra : Option Nat) : Nat := ra.getD 30

/-! ### Reminders (`add_reminder`, lines 113-121) -/

/-- The queued reminder command: `item_id`, `service="push"`,
`type='relative'`, `minute_offset=0`. -/
structure ReminderCmd where
  item_id : Nat
  service : String
  type : String
  minute_offset : Nat
  deriving DecidableEq, Repr

/-- The handle returned by `add_item`; `hasDue` says whether the item
carries a due date. -/
structure ItemHandle where
  id : Nat
  hasDue : Bool
  deriving DecidableEq, Repr

/-- Number of `%s` placeholders in a format string's character list. -/
def countFmtS : List Char → Nat
  | [] => 0
  | '%' :: 's' :: rest => 1 + countFmtS rest
  | _ :: rest => countFmtS rest

/-- Substitute the argument for the first `%s` placeholder. -/
def substFmtS : List Char → List Char → List Char
  | [], _ => []
  | '%' :: 's' :: rest, arg => arg ++ rest
  | c :: rest, arg => c :: substFmtS rest arg

/-- Python's `%`-formatting of a format string against a single scalar
argument: succeeds exactly when the string holds one `%s` placeholder,
and raises `TypeError` otherwise ("not enough arguments for format
string" / "not all arguments converted"). -/
def pyFormatScalar (fmt : String) (arg : String) : Except PyExc String :=
  if countFmtS fmt.data = 1 then .ok ⟨substFmtS fmt.data arg.data⟩
  else .error .typeError

/-- The external client's `self.api.reminders.add` as `add_reminder`'s
own `except KeyError` clause and log message anticipate it: it raises
`KeyError` exactly when the item has no associated due date, and
otherwise queues and returns the push-type, relative, zero-offset
reminder command. -/
def remindersAdd (item : ItemHandle) : Except PyExc ReminderCmd :=
  if item.hasDue then
    .ok { item_id := item.id, service := "push", type := "relative",
          minute_offset := 0 }
  else .error .keyError

/-- `add_reminder` (lines 113-121): try to queue the reminder and log
it; on `KeyError`, evaluate the handler's log line
`"Not adding reminder. Item %s has no associated date: %s" % item['id']`
(whose two placeholders against the single `item['id']` raise
`TypeError` out of the handler); were that formatting to succeed, the
final `return reminder` would still read the never-bound local
`reminder`.  Returns the queued command on success. -/
def add_reminder (item : ItemHandle) : Except PyExc ReminderCmd :=
  match remindersAdd item with
  | .ok reminder =>
    match pyFormatScalar "Added reminder: %s " (toString reminder.item_id) with
    | .ok _ => .ok reminder
    | .error e => .error e
  | .error .keyError =>
    match pyFormatScalar
        "Not adding reminder. Item %s has no associated date: %s"
        (toString item.id) with
    | .ok _ => .error .unboundLocal
    | .error e => .error e
  | .error e => .error e

/-! ### Helper lemmas -/

/-- The recurrence loop leaves the payload untouched when the rule has
no `FREQ` key: either there are no keys to iterate, or the first
iteration's `rrule['FREQ']` raises the `KeyError` that line 88 catches. -/
theorem rruleForLoop_of_no_freq (keys : List String)
    (r : List (String × List String)) (info : TdItemInfo)
    (h : rruleLookup "FREQ" r = none) :
    rruleForLoop keys r info = .ok info := by
  cases keys with
  | nil => rfl
  | cons k ks => simp [rruleForLoop, h]

/-- When the rule's `FREQ` value list starts with `f`, every iteration
of the loop overwrites `date_string` with `f`. -/
theorem rruleForLoop_of_freq (keys : List String)
    (r : List (String × List String)) (info : TdItemInfo) (f : String)
    (fs : List String) (h : rruleLookup "FREQ" r = some (f :: fs)) :
    rruleForLoop keys r info =
      .ok (if keys.isEmpty then info else { info with date_string := some f }) := by
  induction keys generalizing info with
  | nil => rfl
  | cons k ks ih =>
    simp only [rruleForLoop, h, List.head?]
    rw [ih]
    cases ks <;> simp

/-- Full characterization of the mapped payload when the task carries no
recurrence frequency: both date fields mirror the (optional) due date,
the status is copied through, notifications are on, and no exception
escapes. -/
theorem addItemInfo_of_no_freq (t : CalendarTask) (h : rruleFreq t = none) :
    addItemInfo t =
      .ok { content := t.summary,
            due_date_utc := t.due.map dueUtcString,
            date_string := t.due.map dueUtcString,
            status := t.status,
            has_notifications := true } := by
  obtain ⟨su, due, st, rr⟩ := t
  simp only [rruleFreq] at h
  cases rr with
  | none => cases due <;> cases st <;> simp [addItemInfo]
  | some r =>
    rw [Option.some_bind] at h
    cases due <;> cases st <;>
      simp [addItemInfo, rruleForLoop_of_no_freq _ _ _ h]

/-- A rule with a `FREQ` entry is a non-empty dictionary, so the loop
over its keys runs at least one iteration. -/
theorem rruleLookup_keys_ne_nil {key : String}
    {r : List (String × List String)} {l : List String}
    (h : rruleLookup key r = some l) :
    r.map (fun kv => kv.1) ≠ [] := by
  cases r with
  | nil => simp [rruleLookup] at h
  | cons kv r2 => simp

/-- Full characterization of the mapped payload when the recurrence rule
carries a non-empty `FREQ` value: `date_string` is overwritten with the
frequency token, every other field — `due_date_utc` included — is
mapped exactly as for a non-recurring task, and no exception escapes. -/
theorem addItemInfo_of_freq (t : CalendarTask)
    (r : List (String × List String)) (f : String) (fs : List String)
    (hr : t.rrule = some r) (hlk : rruleLookup "FREQ" r = some (f :: fs)) :
    addItemInfo t =
      .ok { content := t.summary,
            due_date_utc := t.due.map dueUtcString,
            date_string := some f,
            status := t.status,
            has_notifications := true } := by
  obtain ⟨su, due, st, rr⟩ := t
  simp only at hr
  subst hr
  have hk : (r.map (fun kv => kv.1)).isEmpty = false := by
    have := rruleLookup_keys_ne_nil hlk
    cases hmap : r.map (fun kv => kv.1) with
    | nil => exact absurd hmap this
    | cons x xs => rfl
  cases due <;> cases st <;>
    simp [addItemInfo, rruleForLoop_of_freq _ _ _ _ _ hlk, hk]

/-- When the recurrence rule's `FREQ` entry is the empty list, the
loop's first iteration evaluates `rrule['FREQ'][0]` on an empty list
and the resulting `IndexError` escapes the mapper uncaught. -/
theorem addItemInfo_of_empty_freq (t : CalendarTask)
    (r : List (String × List String)) (hr : t.rrule = some r)
    (hlk : rruleLookup "FREQ" r = some []) :
    addItemInfo t = .error .indexError := by
  obtain ⟨su, due, st, rr⟩ := t
  simp only at hr
  subst hr
  have hloop : ∀ info, rruleForLoop (r.map (fun kv => kv.1)) r info =
      .error .indexError := by
    intro info
    cases hmap : r.map (fun kv => kv.1) with
    | nil => exact absurd hmap (rruleLookup_keys_ne_nil hlk)
    | cons k ks => simp [rruleForLoop, hlk]
  cases due <;> cases st <;> simp [addItemInfo, hloop]

/-- Field-level description of every successfully mapped payload, with
no restriction on the recurrence rule: the summary and status are copied
through, notifications are on, `due_date_utc` mirrors the (optional) due
date in all cases, and `date_string` mirrors it exactly when the rule
supplies no `FREQ`, being the frequency token otherwise. -/
theorem addItemInfo_ok_fields (t : CalendarTask) (info : TdItemInfo)
    (hok : addItemInfo t = .ok info) :
    info.content = t.summary ∧
    info.due_date_utc = t.due.map dueUtcString ∧
    info.status = t.status ∧
    info.has_notifications = true ∧
    (rruleFreq t = none → info.date_string = t.due.map dueUtcString) ∧
    (∀ f fs, rruleFreq t = some (f :: fs) → info.date_string = some f) := by
  cases hrr : t.rrule with
  | none =>
    have hfreq : rruleFreq t = none := by simp [rruleFreq, hrr]
    rw [addItemInfo_of_no_freq t hfreq, Except.ok.injEq] at hok
    subst hok
    refine ⟨rfl, rfl, rfl, rfl, fun _ => rfl, fun f fs hf => ?_⟩
    rw [hfreq] at hf
    exact Option.noConfusion hf
  | some r =>
    have hfv : rruleFreq t = rruleLookup "FREQ" r := by
      simp [rruleFreq, hrr]
    cases hlk : rruleLookup "FREQ" r with
    | none =>
      have hfreq : rruleFreq t = none := by rw [hfv, hlk]
      rw [addItemInfo_of_no_freq t hfreq, Except.ok.injEq] at hok
      subst hok
      refine ⟨rfl, rfl, rfl, rfl, fun _ => rfl, fun f fs hf => ?_⟩
      rw [hfreq] at hf
      exact Option.noConfusion hf
    | some l =>
      cases l with
      | nil =>
        rw [addItemInfo_of_empty_freq t r hrr hlk] at hok
        exact Except.noConfusion hok
      | cons f0 fs0 =>
        have hfreq : rruleFreq t = some (f0 :: fs0) := by rw [hfv, hlk]
        rw [addItemInfo_of_freq t r f0 fs0 hrr hlk, Except.ok.injEq] at hok
        subst hok
        refine ⟨rfl, rfl, rfl, rfl, fun hf => ?_, fun f fs hf => ?_⟩
        · rw [hfreq] at hf
          exact Option.noConfusion hf
        · rw [hfreq] at hf
          simp only [Option.some.injEq, List.cons.injEq] at hf
          rw [hf.1]

/-- Accounting for the retry loop: `tries` grows by one per 65-second
rate-limit sleep in the trace and never exceeds `MAX_TRIES`, and the
trace never holds a rollback. -/
theorem commitLoop_spec (rs : List Response) :
    ∀ k evs t, k ≤ MAX_TRIES → commitLoop k rs = some (evs, t) →
      t = k + evs.count (Event.sleep 65) ∧ t ≤ MAX_TRIES ∧
      Event.rollback ∉ evs := by
  induction rs with
  | nil =>
    intro k evs t _ h
    simp [commitLoop] at h
  | cons r rest ih =>
    intro k evs t hk h
    cases r with
    | ok =>
      simp only [commitLoop, Option.some.injEq, Prod.mk.injEq] at h
      obtain ⟨he, ht⟩ := h
      subst he; subst ht
      have hc : ([Event.attempt] : List Event).count (Event.sleep 65) = 0 := by
        decide
      exact ⟨by omega, hk, by decide⟩
    | otherError =>
      simp only [commitLoop, Option.some.injEq, Prod.mk.injEq] at h
      obtain ⟨he, ht⟩ := h
      subst he; subst ht
      have hc : ([Event.attempt] : List Event).count (Event.sleep 65) = 0 := by
        decide
      exact ⟨by omega, hk, by decide⟩
    | rateLimited =>
      simp only [commitLoop] at h
      by_cases hlt : k < MAX_TRIES
      · rw [if_pos hlt] at h
        cases heq : commitLoop (k + 1) rest with
        | none => rw [heq] at h; simp at h
        | some et =>
          obtain ⟨evs', t'⟩ := et
          rw [heq] at h
          simp only [Option.map_some', Option.some.injEq, Prod.mk.injEq] at h
          obtain ⟨he, ht⟩ := h
          obtain ⟨ih1, ih2, ih3⟩ := ih (k + 1) evs' t' (by omega) heq
          subst he; subst ht
          refine ⟨?_, ih2, ?_⟩
          · simp only [List.count_cons]
            simp [ih1]
            omega
          · simp only [List.mem_cons]
            push_neg
            exact ⟨by decide, by decide, ih3⟩
      · rw [if_neg hlt] at h
        simp only [Option.some.injEq, Prod.mk.injEq] at h
        obtain ⟨he, ht⟩ := h
        subst he; subst ht
        have hc : ([Event.attempt] : List Event).count (Event.sleep 65) = 0 := by
          decide
        exact ⟨by omega, hk, by decide⟩
    | unavailable ra =>
      simp only [commitLoop] at h
      by_cases hlt : k < MAX_TRIES
      · rw [if_pos hlt] at h
        cases heq : commitLoop k rest with
        | none => rw [heq] at h; simp at h
        | some et =>
          obtain ⟨evs', t'⟩ := et
          rw [heq] at h
          simp only [Option.map_some', Option.some.injEq, Prod.mk.injEq] at h
          obtain ⟨he, ht⟩ := h
          obtain ⟨ih1, ih2, ih3⟩ := ih k evs' t' hk heq
          subst he; subst ht
          refine ⟨?_, ih2, ?_⟩
          · simp only [List.count_cons]
            simp [ih1]
          · simp only [List.mem_cons]
            push_neg
            exact ⟨by decide, ih3⟩
      · rw [if_neg hlt] at h
        simp only [Option.some.injEq, Prod.mk.injEq] at h
        obtain ⟨he, ht⟩ := h
        subst he; subst ht
        have hc : ([Event.attempt] : List Event).count (Event.sleep 65) = 0 := by
          decide
        exact ⟨by omega, hk, by decide⟩

/-! ### Claims -/

set_option maxRecDepth 8192

/-- Claim C1 (code evaluated at the failing input): in non-dry-run mode a
rate-limit response (error_code 35) is retried only after a 65-second
sleep, but a service-unavailable response (error_code 40) is retried
immediately: the trace of a commit whose first response is error 40
holds its two submission attempts with no sleep in between, although the
default backoff `retryAfterOf none` the code computes and logs there is
30 seconds. -/
theorem C1_unavailable_retried_without_wait :
    commitModel true [Response.unavailable none, Response.ok] =
      some ([Event.attempt, Event.attempt], Outcome.success) ∧
    commitModel true [Response.rateLimited, Response.ok] =
      some ([Event.attempt, Event.sleep 65, Event.attempt],
        Outcome.success) ∧
    retryAfterOf none = 30 :=
  ⟨rfl, rfl, rfl⟩

/-- Claim C2 counterexample: after three rate-limited attempts the loop
submits a fourth time; that attempt succeeds (the remote answers without
an error code, so the batch is applied), yet `tries < MAX_TRIES` fails
and commit still terminates the process — termination is not equivalent
to "retries exhausted without success". -/
theorem C2_counterexample :
    commitModel true
      [Response.rateLimited, Response.rateLimited, Response.rateLimited,
        Response.ok] =
      some ([Event.attempt, Event.sleep 65, Event.attempt, Event.sleep 65,
        Event.attempt, Event.sleep 65, Event.attempt],
        Outcome.fatalExit) :=
  rfl

/-- Claim C2 as amended: a non-dry-run commit terminates the process if
and only if its run made exactly `MAX_TRIES` rate-limit waits (whether
or not a later attempt succeeded), and no rollback of already-flushed
batches is ever attempted. -/
theorem C2_amended_fatal_iff_three_rate_limit_waits (rs : List Response)
    (evs : List Event) (o : Outcome)
    (h : commitModel true rs = some (evs, o)) :
    (o = Outcome.fatalExit ↔ evs.count (Event.sleep 65) = MAX_TRIES) ∧
    Event.rollback ∉ evs := by
  simp only [commitModel, if_true] at h
  cases heq : commitLoop 0 rs with
  | none => rw [heq] at h; simp at h
  | some et =>
    obtain ⟨evs', t⟩ := et
    rw [heq] at h
    simp only [Option.map_some', Option.some.injEq, Prod.mk.injEq] at h
    obtain ⟨he, ho⟩ := h
    obtain ⟨h1, h2, h3⟩ :=
      commitLoop_spec rs 0 evs' t (Nat.zero_le _) heq
    subst he
    refine ⟨?_, h3⟩
    subst ho
    unfold commitOutcome
    have hM : MAX_TRIES = 3 := rfl
    constructor
    · intro hf
      by_cases hlt : t < MAX_TRIES
      · rw [if_pos hlt] at hf
        exact absurd hf (by decide)
      · omega
    · intro hc
      rw [if_neg (by omega)]

/-- Witness for the amended C2 at the counterexample run. -/
theorem C2_amended_witness :
    (Outcome.fatalExit = Outcome.fatalExit ↔
      ([Event.attempt, Event.sleep 65, Event.attempt, Event.sleep 65,
        Event.attempt, Event.sleep 65, Event.attempt] : List Event).count
          (Event.sleep 65) = MAX_TRIES) ∧
    Event.rollback ∉ ([Event.attempt, Event.sleep 65, Event.attempt,
      Event.sleep 65, Event.attempt, Event.sleep 65, Event.attempt] :
        List Event) :=
  C2_amended_fatal_iff_three_rate_limit_waits
    [Response.rateLimited, Response.rateLimited, Response.rateLimited,
      Response.ok]
    [Event.attempt, Event.sleep 65, Event.attempt, Event.sleep 65,
      Event.attempt, Event.sleep 65, Event.attempt]
    Outcome.fatalExit rfl

/-- Session invariant for a non-dry-run client: the counter stays at or
below the threshold between calls, the queue exceeds the counter by at
most the one command the flush-triggering call queued after the reset,
and the queue has never held more than `chunkLimit + 1` commands. -/
def ClientInv (s : ClientState) : Prop :=
  s.doCommit = true ∧ s.commandCount ≤ chunkLimit ∧
  s.pending ≤ s.commandCount + 1 ∧ s.maxPending ≤ chunkLimit + 1

/-- Closed form of one wrapped call on a non-dry-run state: either the
counter just advances and the call's commands join the queue, or the
queue is flushed, the counter reset, and only the call's own commands
remain queued. -/
theorem chunkCall_fields (q : Nat) (s : ClientState)
    (hd : s.doCommit = true) :
    chunkCall q s =
      if s.commandCount + 1 > chunkLimit then
        { doCommit := true, commandCount := 0, pending := q,
          flushes := s.flushes ++ [s.pending],
          maxPending := max s.maxPending q }
      else
        { doCommit := true, commandCount := s.commandCount + 1,
          pending := s.pending + q, flushes := s.flushes,
          maxPending := max s.maxPending (s.pending + q) } := by
  obtain ⟨d, c, p, f, m⟩ := s
  simp only at hd
  subst hd
  unfold chunkCall queueCmds chunkEnter commitSimple
  by_cases h : c + 1 > chunkLimit
  · simp [h]
  · simp [h]

/-- One wrapped call queueing at most one command preserves the
invariant. -/
theorem chunkCall_inv (q : Nat) (s : ClientState) (hq : q ≤ 1)
    (h : ClientInv s) : ClientInv (chunkCall q s) := by
  obtain ⟨hd, hc, hp, hm⟩ := h
  unfold ClientInv
  rw [chunkCall_fields q s hd]
  simp only [chunkLimit] at *
  by_cases h1 : s.commandCount + 1 > 90
  · rw [if_pos h1]
    dsimp only
    refine ⟨rfl, by omega, by omega, ?_⟩
    simp only [Nat.max_le]
    omega
  · rw [if_neg h1]
    dsimp only
    refine ⟨rfl, by omega, by omega, ?_⟩
    simp only [Nat.max_le]
    omega

/-- The invariant is preserved along any sequence of wrapped calls each
queueing at most one command. -/
theorem runList_inv (qs : List Nat) (s : ClientState)
    (hqs : ∀ q ∈ qs, q ≤ 1) (h : ClientInv s) :
    ClientInv (runList qs s) := by
  induction qs generalizing s with
  | nil => exact h
  | cons q qs ih =>
    have hstep := chunkCall_inv q s (hqs q (List.mem_cons_self q qs)) h
    exact ih (chunkCall q s) (fun x hx => hqs x (List.mem_cons_of_mem q hx))
      hstep

/-- Claim C3 counterexample: on a fresh non-dry-run session, 181 wrapped
mutating calls that each queue one command leave the largest batch of
uncommitted commands ever held at 91, exceeding the configured threshold
of 90 — the flush-triggering call queues its own command only after the
flush and the reset, so each cycle after the first accumulates 91
commands before the next flush. -/
theorem C3_counterexample :
    (runCalls 181).maxPending = chunkLimit + 1 ∧
    (runCalls 181).maxPending > chunkLimit := by
  exact ⟨by decide, by decide⟩

/-- Claim C3 as amended: every wrapped mutating call increments the
counter by exactly one (flushing first and resetting it to zero whenever
it exceeds the threshold), and on a fresh non-dry-run session the number
of uncommitted commands held at once never exceeds `chunkLimit + 1`,
one more than the threshold. -/
theorem C3_amended_pending_bound (qs : List Nat)
    (hqs : ∀ q ∈ qs, q ≤ 1) :
    (runList qs initState).maxPending ≤ chunkLimit + 1 ∧
    (runList qs initState).commandCount ≤ chunkLimit := by
  have h0 : ClientInv initState := by
    unfold ClientInv
    exact ⟨rfl, by decide, by decide, by decide⟩
  obtain ⟨_, hc, _, hm⟩ := runList_inv qs initState hqs h0
  exact ⟨hm, hc⟩

/-- Witness for the amended C3 on a two-call session. -/
theorem C3_amended_witness :
    (runList [1, 1] initState).maxPending ≤ chunkLimit + 1 ∧
    (runList [1, 1] initState).commandCount ≤ chunkLimit :=
  C3_amended_pending_bound [1, 1] (by decide)

/-- Counter and flush count along a fresh session of unit-queue calls:
a flush fires on every 91st call, so `n` calls produce `n / 91` flushes
and leave the counter at `n % 91`. -/
theorem runCalls_spec (n : Nat) :
    (runCalls n).commandCount = n % (chunkLimit + 1) ∧
    (runCalls n).flushes.length = n / (chunkLimit + 1) ∧
    (runCalls n).doCommit = true := by
  induction n with
  | zero => exact ⟨rfl, rfl, rfl⟩
  | succ n ih =>
    obtain ⟨hc, hf, hd⟩ := ih
    have hstep : runCalls (n + 1) = chunkCall 1 (runCalls n) := rfl
    rw [hstep, chunkCall_fields 1 (runCalls n) hd]
    simp only [chunkLimit] at *
    by_cases h1 : (runCalls n).commandCount + 1 > 90
    · rw [if_pos h1]
      dsimp only
      refine ⟨by omega, ?_, rfl⟩
      simp only [List.length_append, List.length_cons, List.length_nil, hf]
      omega
    · rw [if_neg h1]
      dsimp only
      exact ⟨by omega, by rw [hf]; omega, rfl⟩

/-- Claim C4 counterexample: 91 mutating calls exceed the threshold of
90, yet exactly one flush fires, not the two the ceiling-division
`⌈91 / 90⌉` of the claim predicts. -/
theorem C4_counterexample :
    (runCalls 91).flushes.length = 1 ∧
    (91 + chunkLimit - 1) / chunkLimit = 2 := by
  exact ⟨by decide, by decide⟩

/-- Claim C4 as amended: on a fresh non-dry-run session, `n` mutating
calls each queueing one command trigger exactly `n / 91` flushes (the
threshold-exceeded test fires on every 91st call, since the counter is
reset before the triggering call's own increment is replaced), and after
every flush the counter restarts from zero, so it always reads
`n % 91`. -/
theorem C4_amended_floor_91 (n : Nat) :
    (runCalls n).flushes.length = n / (chunkLimit + 1) ∧
    (runCalls n).commandCount = n % (chunkLimit + 1) := by
  obtain ⟨hc, hf, _⟩ := runCalls_spec n
  exact ⟨hf, hc⟩

/-- Witness for the amended C4 at a session of 182 calls: two flushes. -/
theorem C4_amended_witness :
    (runCalls 182).flushes.length = 182 / (chunkLimit + 1) ∧
    (runCalls 182).commandCount = 182 % (chunkLimit + 1) :=
  C4_amended_floor_91 182

/-- Claim C5 (code evaluated at the failing input): for an item handle
with no associated due date, `add_reminder` raises `TypeError` instead
of skipping quietly — the `except KeyError` handler's log line formats a
two-placeholder string against the single value `item['id']` (and even
a correct formatting would leave the final `return reminder` reading an
unbound local); for an item handle with a due date it queues exactly one
push-type, relative, zero-minute-offset reminder command. -/
theorem C5_add_reminder_eval :
    add_reminder { id := 7, hasDue := false } = .error PyExc.typeError ∧
    add_reminder { id := 7, hasDue := true } =
      .ok { item_id := 7, service := "push", type := "relative",
            minute_offset := 0 } :=
  ⟨rfl, rfl⟩

/-- Claim C6 counterexample: a task with no due date but a recurrence
rule carrying `FREQ=DAILY` maps to an item whose `date_string` is
`DAILY` — the mapped item is not free of `date_string`, contradicting
the claim's unconditional statement. -/
theorem C6_counterexample :
    addItemInfo { summary := "Walk dog", due := none, status := none,
                  rrule := some [("FREQ", ["DAILY"])] } =
      .ok { content := "Walk dog", due_date_utc := none,
            date_string := some "DAILY", status := none,
            has_notifications := true } :=
  rfl

/-- Claim C6 as amended: a task with no due date maps to an item with no
`due_date_utc`; and its `date_string` is also absent provided the task's
recurrence rule is absent or has no `FREQ` key (a present `FREQ`
overwrites `date_string` even without a due date). -/
theorem C6_amended_no_due (t : CalendarTask) (hdue : t.due = none)
    (hfreq : rruleFreq t = none) :
    addItemInfo t =
      .ok { content := t.summary, due_date_utc := none,
            date_string := none, status := t.status,
            has_notifications := true } := by
  have h := addItemInfo_of_no_freq t hfreq
  rw [hdue] at h
  simpa using h

/-- Witness for the amended C6 at a due-less task whose recurrence rule
has keys but no `FREQ`. -/
theorem C6_amended_witness :
    addItemInfo { summary := "Call mom", due := none, status := none,
                  rrule := some [("COUNT", ["5"])] } =
      .ok { content := "Call mom", due_date_utc := none,
            date_string := none, status := none,
            has_notifications := true } :=
  C6_amended_no_due
    { summary := "Call mom", due := none, status := none,
      rrule := some [("COUNT", ["5"])] } rfl (by decide)

/-- Claim C7 counterexample: `commit` on a non-dry-run session with five
counted commands submits the pending queue but leaves the per-session
command counter at five — `commit()` itself never resets
`_command_count`; only the `_chunk_api` wrapper does, after the
threshold-triggered flushes. -/
theorem C7_counterexample :
    commitSimple { doCommit := true, commandCount := 5, pending := 3,
                   flushes := [], maxPending := 3 } =
      { doCommit := true, commandCount := 5, pending := 0,
        flushes := [3], maxPending := 3 } ∧
    (commitSimple { doCommit := true, commandCount := 5, pending := 3,
                    flushes := [], maxPending := 3 }).commandCount ≠ 0 :=
  ⟨rfl, by decide⟩

/-- Claim C7 as amended: in non-dry-run mode, every call to `commit`
submits all pending queued commands as one batch and empties the queue,
but leaves the pending-command counter untouched (the counter reset
happens in the `_chunk_api` wrapper after the flushes it triggers); in
dry-run mode `commit` is a no-op that submits nothing, whatever the
remote would answer. -/
theorem C7_amended_commit_effect (s : ClientState) (rs : List Response) :
    (s.doCommit = true →
      (commitSimple s).pending = 0 ∧
      (commitSimple s).flushes = s.flushes ++ [s.pending] ∧
      (commitSimple s).commandCount = s.commandCount) ∧
    (s.doCommit = false → commitSimple s = s) ∧
    commitModel false rs = some ([], Outcome.success) := by
  refine ⟨?_, ?_, ?_⟩
  · intro hd
    unfold commitSimple
    rw [if_pos hd]
    exact ⟨rfl, rfl, rfl⟩
  · intro hd
    unfold commitSimple
    rw [if_neg (by simp [hd])]
  · simp [commitModel]

/-- Witness for the amended C7 in both modes. -/
theorem C7_amended_witness :
    (commitSimple { doCommit := true, commandCount := 5, pending := 3,
                    flushes := [], maxPending := 3 }).pending = 0 ∧
    commitSimple { doCommit := false, commandCount := 5, pending := 3,
                   flushes := [], maxPending := 3 } =
      { doCommit := false, commandCount := 5, pending := 3,
        flushes := [], maxPending := 3 } ∧
    commitModel false [Response.rateLimited] = some ([], Outcome.success) :=
  ⟨((C7_amended_commit_effect
      { doCommit := true, commandCount := 5, pending := 3,
        flushes := [], maxPending := 3 } [Response.rateLimited]).1 rfl).1,
   (C7_amended_commit_effect
      { doCommit := false, commandCount := 5, pending := 3,
        flushes := [], maxPending := 3 } [Response.rateLimited]).2.1 rfl,
   (C7_amended_commit_effect
      { doCommit := false, commandCount := 5, pending := 3,
        flushes := [], maxPending := 3 } [Response.rateLimited]).2.2⟩

/-- Claim C8: for every task with a due timestamp whose mapping
succeeds — recurring or not — the mapped `due_date_utc` is the
timestamp converted to UTC (the instant `wall - offset`) formatted to
minute precision, and it depends only on the denoted instant, not the
source timezone: any second successfully mapped task due at the same
instant gets the identical `due_date_utc`.  `date_string` equals
`due_date_utc` unless the recurrence rule carries a `FREQ`, which
overrides `date_string` with the frequency token. -/
theorem C8_due_date_utc_mapping (t t2 : CalendarTask) (z z2 : ZonedTime)
    (info info2 : TdItemInfo) (f : String) (fs : List String)
    (hdue : t.due = some z) (hok : addItemInfo t = .ok info)
    (hdue2 : t2.due = some z2) (hok2 : addItemInfo t2 = .ok info2)
    (hinst : z2.wall - z2.offset = z.wall - z.offset) :
    info.due_date_utc = some (strftimeYmdHM (z.wall - z.offset)) ∧
    info2.due_date_utc = info.due_date_utc ∧
    (rruleFreq t = none → info.date_string = info.due_date_utc) ∧
    (rruleFreq t = some (f :: fs) → info.date_string = some f) := by
  obtain ⟨_, hd, _, _, hds, hfs⟩ := addItemInfo_ok_fields t info hok
  obtain ⟨_, hd2, _, _, _, _⟩ := addItemInfo_ok_fields t2 info2 hok2
  have h1 : info.due_date_utc = some (strftimeYmdHM (z.wall - z.offset)) := by
    rw [hd, hdue]
    rfl
  refine ⟨h1, ?_, ?_, ?_⟩
  · rw [hd2, hdue2, h1]
    have hz2 : dueUtcString z2 = strftimeYmdHM (z2.wall - z2.offset) := rfl
    simp only [Option.map_some', hz2, hinst]
  · intro hf
    rw [hds hf, hd]
  · intro hf
    exact hfs f fs hf

/-- Witness for C8 at a recurring task: due 2023-01-01T10:00 at
UTC+02:00 with `FREQ=WEEKLY` maps with `due_date_utc` equal to
`2023-01-01T08:00` while `date_string` is the overriding `WEEKLY`
token, and a non-recurring task due at the same instant expressed
directly in UTC receives the identical `due_date_utc`. -/
theorem C8_witness :
    addItemInfo { summary := "Buy milk",
                  due := some { wall := 27876120, offset := 120 },
                  status := none,
                  rrule := some [("FREQ", ["WEEKLY"])] } =
      .ok { content := "Buy milk",
            due_date_utc := some "2023-01-01T08:00",
            date_string := some "WEEKLY", status := none,
            has_notifications := true } ∧
    addItemInfo { summary := "Pay rent",
                  due := some { wall := 27876000, offset := 0 },
                  status := none, rrule := none } =
      .ok { content := "Pay rent",
            due_date_utc := some "2023-01-01T08:00",
            date_string := some "2023-01-01T08:00", status := none,
            has_notifications := true } ∧
    ({ content := "Buy milk", due_date_utc := some "2023-01-01T08:00",
       date_string := some "WEEKLY", status := none,
       has_notifications := true } : TdItemInfo).due_date_utc =
      some (strftimeYmdHM ((27876120 : Int) - 120)) ∧
    ({ content := "Pay rent", due_date_utc := some "2023-01-01T08:00",
       date_string := some "2023-01-01T08:00", status := none,
       has_notifications := true } : TdItemInfo).due_date_utc =
      ({ content := "Buy milk", due_date_utc := some "2023-01-01T08:00",
         date_string := some "WEEKLY", status := none,
         has_notifications := true } : TdItemInfo).due_date_utc ∧
    ({ content := "Buy milk", due_date_utc := some "2023-01-01T08:00",
       date_string := some "WEEKLY", status := none,
       has_notifications := true } : TdItemInfo).date_string =
      some "WEEKLY" := by
  have h := C8_due_date_utc_mapping
    { summary := "Buy milk", due := some { wall := 27876120, offset := 120 },
      status := none, rrule := some [("FREQ", ["WEEKLY"])] }
    { summary := "Pay rent", due := some { wall := 27876000, offset := 0 },
      status := none, rrule := none }
    { wall := 27876120, offset := 120 } { wall := 27876000, offset := 0 }
    { content := "Buy milk", due_date_utc := some "2023-01-01T08:00",
      date_string := some "WEEKLY", status := none,
      has_notifications := true }
    { content := "Pay rent", due_date_utc := some "2023-01-01T08:00",
      date_string := some "2023-01-01T08:00", status := none,
      has_notifications := true }
    "WEEKLY" [] rfl rfl rfl rfl (by decide)
  exact ⟨rfl, rfl, h.1, h.2.1, h.2.2.2 rfl⟩

/-- Claim C9 counterexample: with the counter at 89, one `add_item` call
leaves it at 0, not at 89 + 2 — the nested `close_item` increment pushes
it past the threshold, so the flush inside the call resets it. -/
theorem C9_counterexample :
    (runCalls 89).commandCount = 89 ∧
    (add_item none (runCalls 89)).commandCount = 0 ∧
    (add_item none (runCalls 89)).commandCount ≠
      (runCalls 89).commandCount + 2 :=
  ⟨by decide, by decide, by decide⟩

/-- Claim C9 as amended: every `add_item` call performs exactly two
counter increments — one for itself and one for the unconditionally
invoked nested `close_item` — so whenever no flush triggers inside the
call (counter at most `chunkLimit - 2` beforehand) the counter advances
by exactly two regardless of the task's status, while the library queue
grows by two commands only for a COMPLETED task and by one otherwise:
the counter can exceed the number of commands actually queued. -/
theorem C9_amended_two_increments (s : ClientState) (status : Option String)
    (h : s.commandCount + 2 ≤ chunkLimit) :
    (add_item status s).commandCount = s.commandCount + 2 ∧
    (add_item status s).pending =
      s.pending + 1 + (if status = some "COMPLETED" then 1 else 0) := by
  obtain ⟨d, c, p, f, m⟩ := s
  have hc : c + 2 ≤ 90 := h
  have h1 : ¬ (c + 1 > 90) := by omega
  have h2 : ¬ (c + 1 + 1 > 90) := by omega
  unfold add_item close_item chunkCall queueCmds chunkEnter commitSimple
    chunkLimit
  simp [h1, h2]

/-- Witness for the amended C9 on a fresh session with a non-completed
task. -/
theorem C9_amended_witness :
    (add_item none initState).commandCount = initState.commandCount + 2 ∧
    (add_item none initState).pending =
      initState.pending + 1 +
        (if (none : Option String) = some "COMPLETED" then 1 else 0) :=
  C9_amended_two_increments initState none (by decide)

/-- Claim C10: a task whose recurrence rule is present but has no `FREQ`
key is mapped exactly as a non-recurring task — the loop's first
`rrule['FREQ']` lookup raises the `KeyError` the handler absorbs, so no
exception escapes, `date_string` keeps the due-date value (or stays
absent), and the item payload is still produced. -/
theorem C10_rrule_without_freq (t : CalendarTask)
    (r : List (String × List String)) (hr : t.rrule = some r)
    (hfreq : rruleLookup "FREQ" r = none) :
    addItemInfo t = addItemInfo { t with rrule := none } ∧
    addItemInfo t =
      .ok { content := t.summary,
            due_date_utc := t.due.map dueUtcString,
            date_string := t.due.map dueUtcString,
            status := t.status, has_notifications := true } := by
  have hf : rruleFreq t = none := by
    unfold rruleFreq
    rw [hr, Option.some_bind, hfreq]
  have h1 := addItemInfo_of_no_freq t hf
  have h2 := addItemInfo_of_no_freq { t with rrule := none }
    (by unfold rruleFreq; rfl)
  refine ⟨?_, h1⟩
  rw [h1, h2]

/-- Witness for C10 at a task whose rule has only unrecognized keys. -/
theorem C10_witness :
    addItemInfo { summary := "Water plants", due := none, status := none,
                  rrule := some [("COUNT", ["3"]), ("INTERVAL", ["2"])] } =
      addItemInfo { summary := "Water plants", due := none, status := none,
                    rrule := none } ∧
    addItemInfo { summary := "Water plants", due := none, status := none,
                  rrule := some [("COUNT", ["3"]), ("INTERVAL", ["2"])] } =
      .ok { content := "Water plants", due_date_utc := none,
            date_string := none, status := none,
            has_notifications := true } :=
  C10_rrule_without_freq
    { summary := "Water plants", due := none, status := none,
      rrule := some [("COUNT", ["3"]), ("INTERVAL", ["2"])] }
    [("COUNT", ["3"]), ("INTERVAL", ["2"])] rfl (by decide)

end Importer

